import Mathlib

/-!
Shallow embedding of the MallocStarter allocator
(src/include/Malloc.hpp and src/src/Malloc.cpp).

Machine pointers are modelled as natural-number addresses; `size_t`
arithmetic wraps modulo `2 ^ 64` where the source can overflow (the
outstanding-page counter).  The OS `mmap`/`munmap` collaborators are
modelled explicitly: an `mmap` outcome is an `Option Nat` (the page-aligned
base address, or `none` for `MAP_FAILED`), and `munmap` is recorded as an
event / a `mapped := false` flag on the region.
-/

namespace MallocModel

/-- Page size: `constexpr size_t pageSize = 4096` from src/include/Malloc.hpp. -/
def pageSize : Nat := 4096

/-- Modulus of `size_t` arithmetic on the 64-bit target. -/
def U64 : Nat := 2 ^ 64

/-- Value of `sizeof(MMapObject)` on the 64-bit target: two `size_t` data members
(`m_mmapSize`, `m_arenaSize`; the `static` atomic counter does not
contribute to the object size). -/
def sizeofMMapObject : Nat := 16

/-- Value of `sizeof(BigAlloc)`: the `MMapObject` base plus the zero-length
`char m_data[0]` array, so 16 bytes; the payload of a big allocation
starts at this offset from the mapping base. -/
def sizeofBigAlloc : Nat := 16

/-- Value of `sizeof(Arena)`: the `MMapObject` base (16) plus three
`std::atomic<size_t>` members (24) plus `char* m_next` (8) plus the
zero-length `char m_data[0]`, so 48 bytes; `m_data` starts at this offset
from the mapping base. -/
def sizeofArena : Nat := 48

/-- Value of `sizeof(obj)` where `obj` is the local variable `Arena* obj` inside
`Arena::create`: the size of a pointer on the 64-bit target, 8 bytes.
Note this is the size of the pointer variable, not of the `Arena` layout. -/
def sizeofArenaPointer : Nat := 8

/-- Events emitted by `MMapObject::dealloc`, in program order. -/
inductive Event
  | munmap
  | counterDecrement
  | sigtrap
  deriving Repr, DecidableEq

/-- Result of one `MMapObject::dealloc` call on the process-wide
`s_outstandingPages` counter. -/
structure DeallocResult where
  counterAfter : Nat
  trapped : Bool
  events : List Event
  deriving Repr, DecidableEq

/-- The function `MMapObject::dealloc`, modelled on the outstanding-page counter.  The
source first calls `munmap(map, map->mmapSize())`, then performs the atomic
fetch-and-decrement `size_t old = s_outstandingPages--` (which wraps modulo
`2 ^ 64` when the counter is zero), and finally `raise(SIGTRAP)` when the
fetched pre-decrement value was zero.  The removal of the unmapped region
from the address space is handled by the callers of this model. -/
def MMapObject.dealloc (counter : Nat) : DeallocResult :=
  let old := counter
  { counterAfter := (counter + (U64 - 1)) % U64
    trapped := old == 0
    events := [Event.munmap, Event.counterDecrement]
      ++ (if old == 0 then [Event.sigtrap] else []) }

/-- The `Arena` overlay from src/include/Malloc.hpp, together with the base
address of its mapping.  A `BigAlloc` / plain `MMapObject` header is
represented by the same record with `m_arenaSize = 0` (the source
dispatches on `arenaSize() == 0` and never reads the arena-only fields of a
big allocation; `mmap(MAP_ANONYMOUS)` zero-fills fresh pages, so the
arena-only fields of a freshly mapped region hold zero). -/
structure Arena where
  base : Nat
  m_mmapSize : Nat
  m_arenaSize : Nat
  freedItems : Nat
  totalSpaceUsed : Nat
  totalSpaceUsedNoHeader : Nat
  m_next : Nat
  deriving Repr, DecidableEq, Inhabited

/-- Result of `Arena::create`: the initialised overlay and whether the
`raise(SIGTRAP)` guard `if (sizeof(obj) % 8 != 0)` fired. -/
structure ArenaCreate where
  arena : Arena
  trapped : Bool
  deriving Repr, DecidableEq

/-- The function `Arena::create(itemSize)` on a successfully mmapped page at `base`:
`MMapObject::alloc(pageSize, itemSize)` writes `m_mmapSize` and
`m_arenaSize`; `create` then sets `m_next = &m_data[0]` (offset
`sizeofArena` from the base) and `totalSpaceUsed = sizeof(Arena)`.
`freedItems` and `totalSpaceUsedNoHeader` are never assigned and hold the
zero-fill of the fresh anonymous mapping.  The guard checks
`sizeof(obj) % 8` where `obj` is the local `Arena*` pointer variable. -/
def Arena.create (base itemSize : Nat) : ArenaCreate :=
  { arena :=
      { base := base
        m_mmapSize := pageSize
        m_arenaSize := itemSize
        freedItems := 0
        totalSpaceUsed := sizeofArena
        totalSpaceUsedNoHeader := 0
        m_next := base + sizeofArena }
    trapped := decide (sizeofArenaPointer % 8 ≠ 0) }

/-- The predicate `Arena::full`: `totalSpaceUsed.load() + arenaSize() > pageSize`. -/
def Arena.full (a : Arena) : Bool :=
  decide (pageSize < a.totalSpaceUsed + a.m_arenaSize)

/-- The function `Arena::alloc`: if not full, return the current `m_next`, add
`arenaSize()` to both space counters, and set
`m_next = &m_data[totalSpaceUsed.load()]`, i.e. the address
`base + sizeofArena + totalSpaceUsed` with the post-increment counter value
(note the source indexes `m_data` by `totalSpaceUsed`, which already
includes the `sizeof(Arena)` header baseline).  If full, return null
(`none`).  The `temp == nullptr` SIGTRAP guard in the source never fires
for a region at a nonzero base and is not modelled. -/
def Arena.alloc (a : Arena) : Option Nat × Arena :=
  if a.full then (none, a)
  else
    let temp := a.m_next
    let tSU := a.totalSpaceUsed + a.m_arenaSize
    let tSUNH := a.totalSpaceUsedNoHeader + a.m_arenaSize
    ( some temp,
      { a with
          totalSpaceUsed := tSU
          totalSpaceUsedNoHeader := tSUNH
          m_next := a.base + sizeofArena + tSU } )

/-- The function `Arena::free`: increments `freedItems`, then returns
`freedItems.load() == totalSpaceUsedNoHeader.load() / arenaSize() && full()`. -/
def Arena.free (a : Arena) : Bool × Arena :=
  let a1 := { a with freedItems := a.freedItems + 1 }
  ( a1.freedItems == a1.totalSpaceUsedNoHeader / a1.m_arenaSize && a1.full,
    a1 )

/-- The state of an arena after `n` consecutive `Arena::alloc` calls
(each call that finds the arena full leaves it unchanged). -/
def Arena.iterate (a : Arena) : Nat → Arena
  | 0 => a
  | n + 1 => ((Arena.iterate a n).alloc).2

/-- The function `MMapObject::alloc(size, arenaSize)` restricted to its externally
visible outcome: `osResult` is the mmap result (`none` for `MAP_FAILED`).
On failure the function returns null without touching the counter; on
success it returns the base address and increments `s_outstandingPages`
(a `size_t`, so modulo `2 ^ 64`).  The header written at the base is
reconstructed by the callers of this model. -/
def MMapObject.allocResult (osResult : Option Nat) (counter : Nat) :
    Option Nat × Nat :=
  match osResult with
  | none => (none, counter)
  | some base => (some base, (counter + 1) % U64)

/-- The function `BigAlloc::alloc(size)`: calls `MMapObject::alloc(size + sizeof(BigAlloc), 0)`
and returns `&obj->m_data[0]`, the address `sizeofBigAlloc` past the
returned pointer.  The source performs this address computation without a
null check, so when mmap fails (the returned pointer is null, address 0)
the function still returns the address `0 + sizeofBigAlloc`.  The result is
the returned address paired with the counter after the call. -/
def BigAlloc.alloc (osResult : Option Nat) (size : Nat) (counter : Nat) :
    Nat × Nat :=
  let r := MMapObject.allocResult osResult counter
  let fullSize := size + sizeofBigAlloc
  let _ := fullSize   -- passed to mmap; the OS outcome is `osResult`
  (r.1.getD 0 + sizeofBigAlloc, r.2)

/-- The process state seen by one `ArenaStore`: every region ever mapped
(`regions`, paired with whether its mapping is still live — C++ pointer
aliasing is modelled by indexing this list), the store's `m_arenas` table
of nine `Arena*` slots (`some i` points at `regions[i]`), the process-wide
`s_outstandingPages` counter, and the base address the OS will hand to the
next successful mmap (the model hands out disjoint page-aligned bases). -/
structure SysState where
  regions : List (Arena × Bool)
  table : List (Option Nat)
  outstanding : Nat
  nextBase : Nat
  deriving Repr, DecidableEq

/-- A freshly constructed `ArenaStore` (all nine `m_arenas` entries null)
in a process with no outstanding mappings; the OS will place the first
mapping at `firstBase`. -/
def freshState (firstBase : Nat) : SysState :=
  { regions := []
    table := List.replicate 9 none
    outstanding := 0
    nextBase := firstBase }

/-- One size-class branch of `ArenaStore::alloc` (the eight branches in
the source are identical up to the class index `i` and slot size `size`;
the `bytes <= 8` branch omits the interior `m_arenas[0] = newArena` store
that the other branches perform, but every branch ends with
`m_arenas[i] = arena`, which overwrites that interior store with the value
read at entry, so the net effect embedded here is the same for all eight).
The mmap inside `Arena::create` is modelled as succeeding at `nextBase`
(the mmap-failure path of the large-allocation route is modelled separately
by `BigAlloc.alloc`).

When `m_arenas[i]` is null the source creates a new arena, issues from it,
and then executes `m_arenas[i] = arena` where the local `arena` still holds
the null read at entry — so the table entry is reset to null.  When
`m_arenas[i]` is non-null, `arena->alloc()` mutates the arena in place
(modelled by updating `regions`) and the trailing `m_arenas[i] = arena`
rewrites the same pointer. -/
def ArenaStore.allocClass (s : SysState) (i : Nat) (size : Nat) :
    Option Nat × SysState :=
  match s.table.getD i none with
  | none =>
      let created := Arena.create s.nextBase size
      let id := s.regions.length
      let regions1 := s.regions ++ [(created.arena, true)]
      let table1 := s.table.set i (some id)          -- m_arenas[i] = newArena
      let (temp, mutated) := created.arena.alloc     -- temp = newArena->alloc()
      let regions2 := regions1.set id (mutated, true)
      let table2 := table1.set i none                -- m_arenas[i] = arena (null at entry)
      ( temp,
        { regions := regions2
          table := table2
          outstanding := (s.outstanding + 1) % U64   -- s_outstandingPages++ in MMapObject::alloc
          nextBase := s.nextBase + pageSize } )
  | some id =>
      let entry := s.regions.getD id (default, false)
      let (temp, mutated) := entry.1.alloc           -- temp = arena->alloc()
      let regions2 := s.regions.set id (mutated, entry.2)
      -- m_arenas[i] = arena stores the same pointer back: no visible change
      (temp, { s with regions := regions2 })

/-- The function `ArenaStore::alloc(bytes)`: the if-else chain over the size classes
8, 16, ..., 1024; anything larger goes to `BigAlloc::alloc`.  As in
`allocClass`, the OS mapping is modelled as succeeding at `nextBase`
(a big allocation advances `nextBase` by its whole page-rounded length). -/
def ArenaStore.alloc (s : SysState) (bytes : Nat) : Option Nat × SysState :=
  if bytes ≤ 8 then ArenaStore.allocClass s 0 8
  else if bytes ≤ 16 then ArenaStore.allocClass s 1 16
  else if bytes ≤ 32 then ArenaStore.allocClass s 2 32
  else if bytes ≤ 64 then ArenaStore.allocClass s 3 64
  else if bytes ≤ 128 then ArenaStore.allocClass s 4 128
  else if bytes ≤ 256 then ArenaStore.allocClass s 5 256
  else if bytes ≤ 512 then ArenaStore.allocClass s 6 512
  else if bytes ≤ 1024 then ArenaStore.allocClass s 7 1024
  else
    let fullSize := bytes + sizeofBigAlloc
    let region : Arena :=
      { base := s.nextBase
        m_mmapSize := fullSize
        m_arenaSize := 0
        freedItems := 0
        totalSpaceUsed := 0
        totalSpaceUsedNoHeader := 0
        m_next := 0 }
    ( some (s.nextBase + sizeofBigAlloc),
      { regions := s.regions ++ [(region, true)]
        table := s.table
        outstanding := (s.outstanding + 1) % U64
        nextBase := s.nextBase + pageSize * ((fullSize + pageSize - 1) / pageSize) } )

/-- Address `ptr` rounded down to the nearest page boundary — the header-recovery
arithmetic of `MMapObject::dealloc` and `ArenaStore::free`. -/
def pageFloor (ptr : Nat) : Nat := ptr - ptr % pageSize

/-- Outcome of one `ArenaStore::free` call: the boolean returned by
`arena->free()` on the pool path (`none` on the big-allocation path),
whether the SIGTRAP in `MMapObject::dealloc` fired, and the process state
after the call. -/
structure FreeResult where
  retired : Option Bool
  trapped : Bool
  state : SysState
  deriving Repr, DecidableEq

/-- The function `ArenaStore::free(ptr)`: recover the header at the page floor of
`ptr`; if `arenaSize() == 0` treat it as a big allocation and call
`MMapObject::dealloc(ptr)`; otherwise call `arena->free()` and then call
`MMapObject::dealloc(ptr)` unconditionally — the boolean returned by
`arena->free()` is bound to the local `freed` and never consulted by the
source.  Unmapping is modelled by clearing the region's live flag.
Returns `none` when no live mapping contains the page floor (dereferencing
such a pointer is undefined behaviour in the source). -/
def ArenaStore.free (s : SysState) (ptr : Nat) : Option FreeResult :=
  let base := pageFloor ptr
  match s.regions.findIdx? (fun rb => rb.2 && rb.1.base == base) with
  | none => none
  | some id =>
      let entry := s.regions.getD id (default, false)
      if entry.1.m_arenaSize == 0 then
        let d := MMapObject.dealloc s.outstanding
        some { retired := none
               trapped := d.trapped
               state := { s with
                            regions := s.regions.set id (entry.1, false)
                            outstanding := d.counterAfter } }
      else
        let fr := entry.1.free
        let d := MMapObject.dealloc s.outstanding
        some { retired := some fr.1
               trapped := d.trapped
               state := { s with
                            regions := s.regions.set id (fr.2, false)
                            outstanding := d.counterAfter } }

/-- The possible outcomes of a C++ function returning `void*`: a defined
pointer value, or an indeterminate value when control flows off the end of
the function without executing a `return` statement. -/
inductive CppReturn
  | value (ptr : Nat)
  | indeterminate
  deriving Repr, DecidableEq

/-- The function `myMalloc` as written in src/src/Malloc.cpp: the entire body (the call
to `ArenaStore::alloc` and the return of its result) is commented out, so
control flows off the end of the non-void function and no defined value is
returned for any request size. -/
def myMalloc (_ : Nat) : CppReturn := CppReturn.indeterminate

/-!  Scenario states used by several theorems below. -/

/-- A fresh 8-byte arena on the page `[pageSize, 2 * pageSize)`. -/
def arena8 : Arena := (Arena.create pageSize 8).arena

/-- An exhausted (full) 1024-byte pool: three successful issues fill it,
since `48 + 3 * 1024 + 1024 > 4096`. -/
def fullPool1024 : Arena := Arena.iterate (Arena.create pageSize 1024).arena 3

/-- A store whose class-7 (1024-byte) table entry holds a live but
exhausted pool, with one outstanding mapping. -/
def exhaustedPoolState : SysState :=
  { regions := [(fullPool1024, true)]
    table := (List.replicate 9 none).set 7 (some 0)
    outstanding := 1
    nextBase := 2 * pageSize }

/-!  Supporting lemmas. -/

/-- An `Arena::alloc` call returns a slot exactly when the arena is not
full. -/
theorem arena_alloc_isSome (a : Arena) : ((a.alloc).1).isSome = !a.full := by
  simp only [Arena.alloc]
  cases h : a.full <;> simp [h]

/-- A non-full arena issues its current bump cursor `m_next`. -/
theorem arena_alloc_fst_of_not_full (a : Arena) (h : a.full = false) :
    (a.alloc).1 = some a.m_next := by
  simp [Arena.alloc, h]

/-- Repeated `Arena::alloc` never moves the region's base address. -/
theorem arena_iterate_base (a : Arena) (k : Nat) :
    (a.iterate k).base = a.base := by
  induction k with
  | zero => rfl
  | succ n ih =>
      simp only [Arena.iterate]
      cases h : (a.iterate n).full <;> simp [Arena.alloc, h, ih]

/-- Invariant of repeated `Arena::alloc` on a fresh arena with positive
item size: the item size is preserved and `totalSpaceUsed` grows by one
item per successful issue, saturating once the arena is full (after
`(pageSize - sizeofArena) / s` issues). -/
theorem arena_iterate_totalSpaceUsed (s base : Nat) (hs : 0 < s) (k : Nat) :
    ((Arena.create base s).arena.iterate k).m_arenaSize = s ∧
    ((Arena.create base s).arena.iterate k).totalSpaceUsed
      = sizeofArena + min k ((pageSize - sizeofArena) / s) * s := by
  induction k with
  | zero =>
      refine ⟨rfl, ?_⟩
      simp [Arena.iterate, Arena.create]
  | succ n ih =>
      obtain ⟨ih1, ih2⟩ := ih
      have hdiv : ((pageSize - sizeofArena) / s) * s ≤ pageSize - sizeofArena :=
        Nat.div_mul_le_self _ _
      have hps : sizeofArena ≤ pageSize := by norm_num [sizeofArena, pageSize]
      simp only [Arena.iterate]
      by_cases hcase : n < (pageSize - sizeofArena) / s
      · have hmin : min n ((pageSize - sizeofArena) / s) = n :=
          Nat.min_eq_left (Nat.le_of_lt hcase)
        have hmin1 : min (n + 1) ((pageSize - sizeofArena) / s) = n + 1 :=
          Nat.min_eq_left hcase
        have hmul : (n + 1) * s ≤ ((pageSize - sizeofArena) / s) * s :=
          Nat.mul_le_mul_right s hcase
        rw [Nat.succ_mul] at hmul
        have hfull : ((Arena.create base s).arena.iterate n).full = false := by
          unfold Arena.full
          rw [ih1, ih2, hmin, decide_eq_false_iff_not, not_lt]
          omega
        refine ⟨?_, ?_⟩ <;>
          simp [Arena.alloc, hfull, ih1, ih2, hmin, hmin1, Nat.succ_mul] <;>
          omega
      · have hge := Nat.le_of_not_lt hcase
        have hmin : min n ((pageSize - sizeofArena) / s) = (pageSize - sizeofArena) / s :=
          Nat.min_eq_right hge
        have hmin1 : min (n + 1) ((pageSize - sizeofArena) / s)
            = (pageSize - sizeofArena) / s :=
          Nat.min_eq_right (le_trans hge (Nat.le_succ n))
        have hlt : pageSize - sizeofArena < ((pageSize - sizeofArena) / s) * s + s :=
          Nat.lt_div_mul_add hs
        have hfull : ((Arena.create base s).arena.iterate n).full = true := by
          unfold Arena.full
          rw [ih1, ih2, hmin, decide_eq_true_eq]
          omega
        refine ⟨?_, ?_⟩ <;>
          simp [Arena.alloc, hfull, ih1, ih2, hmin, hmin1]

/-- Value of the bump cursor after `k + 1` issues (all successful, since
`k + 1` is at most the pool capacity): because `Arena::alloc` indexes
`m_data` by `totalSpaceUsed` — which already includes the
`sizeof(Arena)` header baseline — the cursor sits
`2 * sizeofArena + (k + 1) * s` past the base rather than
`sizeofArena + (k + 1) * s`. -/
theorem arena_iterate_m_next (s base : Nat) (hs : 0 < s) (k : Nat)
    (hk : k + 1 ≤ (pageSize - sizeofArena) / s) :
    ((Arena.create base s).arena.iterate (k + 1)).m_next
      = base + 2 * sizeofArena + (k + 1) * s := by
  obtain ⟨h1, h2⟩ := arena_iterate_totalSpaceUsed s base hs k
  have hdiv : ((pageSize - sizeofArena) / s) * s ≤ pageSize - sizeofArena :=
    Nat.div_mul_le_self _ _
  have hps : sizeofArena ≤ pageSize := by norm_num [sizeofArena, pageSize]
  have hmin : min k ((pageSize - sizeofArena) / s) = k :=
    Nat.min_eq_left (by omega)
  have hmul : (k + 1) * s ≤ ((pageSize - sizeofArena) / s) * s :=
    Nat.mul_le_mul_right s hk
  rw [Nat.succ_mul] at hmul
  have hfull : ((Arena.create base s).arena.iterate k).full = false := by
    unfold Arena.full
    rw [h1, h2, hmin, decide_eq_false_iff_not, not_lt]
    omega
  have hbase : ((Arena.create base s).arena.iterate k).base = base :=
    arena_iterate_base _ _
  simp only [Arena.iterate]
  simp [Arena.alloc, hfull, h1, h2, hbase, hmin, Nat.succ_mul]
  omega

/-!  The claims. -/

/-- C1: the spec states that `free(p)` on a pool slot releases the
underlying mapping (and decrements the outstanding-mapping counter) only
when the pool's retire call reports full drain, and that an undrained pool
keeps its mapping and leaves the counter unchanged.  The source violates
this: evaluated on the first slot issued from a fresh 8-byte pool (a pool
that is nowhere near drained — `Arena::free` returns `false`),
`ArenaStore::free` still calls `MMapObject::dealloc`, unmapping the pool's
page and dropping the outstanding counter from 1 to 0. -/
theorem c1_free_releases_undrained_pool :
    (ArenaStore.free (ArenaStore.alloc (freshState pageSize) 8).2
        ((ArenaStore.alloc (freshState pageSize) 8).1.getD 0)).map
      (fun r => (r.retired, r.state.outstanding, r.state.regions.map Prod.snd))
      = some (some false, 0, [false]) := by decide

/-- C2: the spec states that `myMalloc` returns a pointer to at least `n`
8-byte-aligned usable bytes or null on mapping failure.  The source's
`myMalloc` has its whole body commented out, so it returns no defined
value at all (here evaluated at the request size 8). -/
theorem c2_myMalloc_has_no_defined_return :
    myMalloc 8 = CppReturn.indeterminate := rfl

/-- C3: the spec states that after the store creates a pool for a class,
the table entry holds that pool and the next allocation in the class
issues from it.  The source violates this: after `alloc(16)` on a fresh
store, the class-1 table entry is back to null (the trailing
`m_arenas[1] = arena` rewrites the stale null read at entry), so a second
`alloc(16)` creates a second pool (two regions mapped) and returns the
first slot of the new page rather than the second slot of the first. -/
theorem c3_store_table_does_not_retain_created_pool :
    ((ArenaStore.alloc (freshState pageSize) 16).2.table.getD 1 none = none)
    ∧ (ArenaStore.alloc (freshState pageSize) 16).2.regions.length = 1
    ∧ (ArenaStore.alloc (freshState pageSize) 16).1 = some (pageSize + sizeofArena)
    ∧ (ArenaStore.alloc ((ArenaStore.alloc (freshState pageSize) 16).2) 16).2.regions.length = 2
    ∧ (ArenaStore.alloc ((ArenaStore.alloc (freshState pageSize) 16).2) 16).1
        = some (2 * pageSize + sizeofArena) := by decide

/-- C4: the spec states that when a class's live pool is exhausted the
store creates a replacement pool and issues from it, so bump exhaustion
never yields a failure return.  The source violates this: on a store whose
class-7 entry holds a full 1024-byte pool, `alloc(1024)` returns null and
leaves the state unchanged (no replacement pool is created, the table
entry is not replaced). -/
theorem c4_exhausted_pool_alloc_fails_without_replacement :
    fullPool1024.full = true
    ∧ (ArenaStore.alloc exhaustedPoolState 1024).1 = none
    ∧ (ArenaStore.alloc exhaustedPoolState 1024).2 = exhaustedPoolState := by decide

/-- C5: the spec states that when the OS mapping call fails, the
large-allocation path returns null.  The source violates this: with mmap
failing (`none`), `BigAlloc::alloc(2048)` still computes
`&obj->m_data[0]` from the null pointer and returns the nonzero address
`sizeofBigAlloc = 16` instead of the null failure signal (the counter is
untouched, as the failed `MMapObject::alloc` returns early). -/
theorem c5_bigalloc_returns_nonnull_on_mmap_failure :
    (BigAlloc.alloc none 2048 7).1 = sizeofBigAlloc
    ∧ sizeofBigAlloc ≠ 0
    ∧ (BigAlloc.alloc none 2048 7).2 = 7 := by decide

/-- C6: the spec states that every pointer returned to a caller lies
strictly inside `[start, start + mappedSize)` of its owning region.  The
source violates this: because `Arena::alloc` sets
`m_next = &m_data[totalSpaceUsed]` — double-counting the header that
`totalSpaceUsed` already includes — the 502nd successful issue from a
fresh 8-byte arena mapped at `[4096, 8192)` returns address 8200, which is
beyond the end of the mapping. -/
theorem c6_issued_pointer_escapes_mapping :
    ((Arena.iterate arena8 501).alloc).1 = some 8200
    ∧ arena8.base + arena8.m_mmapSize ≤ 8200 := by
  have hs : (0 : Nat) < 8 := by norm_num
  simp only [arena8]
  have hmin : min 501 ((pageSize - sizeofArena) / 8) = 501 := by
    simp [pageSize, sizeofArena, Nat.min_def]
  have hfull : ((Arena.create pageSize 8).arena.iterate 501).full = false := by
    obtain ⟨h1, h2⟩ := arena_iterate_totalSpaceUsed 8 pageSize hs 501
    unfold Arena.full
    rw [h1, h2, hmin, decide_eq_false_iff_not, not_lt]
    norm_num [pageSize, sizeofArena]
  have hnext : ((Arena.create pageSize 8).arena.iterate 501).m_next = 8200 := by
    have h := arena_iterate_m_next 8 pageSize hs 500 (by norm_num [pageSize, sizeofArena])
    norm_num [pageSize, sizeofArena] at h
    exact h
  constructor
  · rw [arena_alloc_fst_of_not_full _ hfull, hnext]
  · simp [Arena.create, pageSize]

/-- C7: a freshly created pool on a 4096-byte page issues exactly
`N = (pageSize - sizeofArena) / itemSize` slots — the k-th issue attempt
(0-indexed) succeeds exactly when `k < N` — so the first `N` attempts all
succeed and the `(N+1)`-th returns the failure signal.  Holds for every
positive item size. -/
theorem c7_fresh_pool_issue_count (s base k : Nat) (hs : 0 < s) :
    (((Arena.create base s).arena.iterate k).alloc).1.isSome
      = decide (k < (pageSize - sizeofArena) / s) := by
  obtain ⟨h1, h2⟩ := arena_iterate_totalSpaceUsed s base hs k
  rw [arena_alloc_isSome]
  unfold Arena.full
  rw [h1, h2, ← decide_not, decide_eq_decide, not_lt]
  have hdiv : ((pageSize - sizeofArena) / s) * s ≤ pageSize - sizeofArena :=
    Nat.div_mul_le_self _ _
  have hlt : pageSize - sizeofArena < ((pageSize - sizeofArena) / s) * s + s :=
    Nat.lt_div_mul_add hs
  have hps : sizeofArena ≤ pageSize := by norm_num [sizeofArena, pageSize]
  constructor
  · intro h
    by_contra hk
    rw [Nat.min_eq_right (Nat.le_of_not_lt hk)] at h
    omega
  · intro hk
    rw [Nat.min_eq_left (Nat.le_of_lt hk)]
    have hmul : (k + 1) * s ≤ ((pageSize - sizeofArena) / s) * s :=
      Nat.mul_le_mul_right s hk
    rw [Nat.succ_mul] at hmul
    omega

/-- Witness for C7 at `itemSize = 8` on the page `[4096, 8192)`: the
capacity is `(4096 - 48) / 8 = 506`, and the 507th issue attempt
(index 506) fails. -/
theorem c7_fresh_pool_issue_count_witness :
    0 < 8
    ∧ (((Arena.create 4096 8).arena.iterate 506).alloc).1.isSome
        = decide (506 < (pageSize - sizeofArena) / 8) :=
  ⟨by decide, c7_fresh_pool_issue_count 8 4096 506 (by decide)⟩

/-- C8: every `MMapObject::dealloc` call decrements the outstanding-page
counter — to `c - 1` for a positive pre-value `c`, wrapping for zero —
and raises the SIGTRAP exactly when the pre-decrement value was zero. -/
theorem c8_dealloc_decrements_and_traps_iff_zero (c : Nat) (hc : c < U64) :
    ((MMapObject.dealloc c).trapped = true ↔ c = 0)
    ∧ (MMapObject.dealloc c).counterAfter = (if c = 0 then U64 - 1 else c - 1) := by
  constructor
  · simp [MMapObject.dealloc]
  · simp only [MMapObject.dealloc]
    unfold U64 at hc ⊢
    by_cases h : c = 0
    · subst h
      rw [if_pos rfl]
      omega
    · rw [if_neg h]
      omega

/-- Witness for C8 at counter value 5: no trap, counter becomes 4. -/
theorem c8_dealloc_decrements_and_traps_iff_zero_witness :
    5 < U64
    ∧ (((MMapObject.dealloc 5).trapped = true ↔ 5 = 0)
       ∧ (MMapObject.dealloc 5).counterAfter = (if 5 = 0 then U64 - 1 else 5 - 1)) :=
  ⟨by decide, c8_dealloc_decrements_and_traps_iff_zero 5 (by decide)⟩

/-- C9: the alignment guard in `Arena::create` tests
`sizeof(obj) % 8` where `obj` is the local `Arena*` pointer variable —
8 bytes on this 64-bit target, never the `Arena` layout — so the trap
branch is unreachable for every item size and base address. -/
theorem c9_create_alignment_trap_unreachable (base itemSize : Nat) :
    (Arena.create base itemSize).trapped = false ∧ sizeofArenaPointer = 8 :=
  ⟨rfl, rfl⟩

/-- C10: calling `MMapObject::dealloc` with the outstanding counter at
zero still decrements the counter — the `size_t` fetch-and-decrement wraps
to `2 ^ 64 - 1`, so the counter does not stay at zero — and the munmap and
the decrement both happen before the SIGTRAP is raised. -/
theorem c10_underflow_wraps_and_unmaps_before_trap :
    (MMapObject.dealloc 0).counterAfter = U64 - 1
    ∧ (MMapObject.dealloc 0).counterAfter ≠ 0
    ∧ (MMapObject.dealloc 0).trapped = true
    ∧ (MMapObject.dealloc 0).events
        = [Event.munmap, Event.counterDecrement, Event.sigtrap] := by decide

end MallocModel
